import Mathlib

set_option linter.unusedVariables false

/-!
Shallow embedding of the quiz-administration backend (`backend/main.py`,
`backend/database.py`, `backend/schemas.py`).

Documents live in a Mongo store as Python dicts; fields that the code reads
with `.get(...)` (and may therefore be absent) are modelled as `Option`
fields, with `none` standing for an absent key.  Times are abstracted to
`Nat` (the code only ever stores `datetime.utcnow()` opaquely).  The Mongo
`_id` of an attempt is modelled as a plain `String`; `ObjectId` parsing is
not modelled.  An unhandled Python exception (e.g. `KeyError` from
`q["id"]`, or `AttributeError` from calling `.get` on `None`) is modelled
as an explicit error variant distinct from the `HTTPException` ones.
-/

abbrev Time := Nat

/-- The `meta` payload of a suspicious event (`Optional[Dict[str, Any]]`). -/
abbrev Meta := Option (List (String × String))

/-- A submitted answers dict (`Dict[str, Any]`), question id to chosen option id. -/
abbrev Answers := List (String × String)

/-- `answers.get(k)`: first-match association-list lookup, `none` when absent. -/
def dictGet (a : Answers) (k : String) : Option String :=
  match a with
  | [] => none
  | (k', v) :: rest => if k' = k then some v else dictGet rest k

/-- An option dict inside a question.  All fields are read defensively with
`.get` in the source, so all are optional. -/
structure OptionDoc where
  id : Option String
  text : Option String
  isCorrect : Option Bool
deriving DecidableEq

/-- A question dict inside a quiz.  `calculate_score` reads `q["id"]`
(**not** `.get`), `q.get("options", [])` and `q.get("points", 1)`. -/
structure QuestionDoc where
  id : Option String
  text : Option String
  options : Option (List OptionDoc)
  points : Option Int
deriving DecidableEq

/-- A quiz document as inserted by `create_quiz`: that endpoint always sets
`id`, `title`, `code`, `timeLimit`, `version`, `createdBy`, `questions`,
`createdAt` and `updatedAt`.  The timestamp fields are kept optional so that
presence of `createdAt`/`updatedAt` across collections can be stated. -/
structure QuizDoc where
  id : String
  title : String
  code : String
  timeLimit : Int
  version : Int
  createdBy : String
  questions : Option (List QuestionDoc)
  createdAt : Option Time
  updatedAt : Option Time
deriving DecidableEq

/-- One suspicious-event record as pushed by `log_event`:
`{"type": event.type, "meta": event.meta, "time": datetime.utcnow()}`. -/
structure EventDoc where
  type : String
  meta : Meta
  time : Time
deriving DecidableEq

/-- An attempt document as inserted by `start_attempt`.  That endpoint sets
exactly `quizId`, `studentId`, `answers`, `score`, `startTime`, `endTime`
and `suspiciousEvents`; it sets no `createdAt`/`updatedAt`, so those are
optional and absent on insertion. -/
structure AttemptDoc where
  quizId : String
  studentId : String
  answers : Answers
  score : Int
  startTime : Time
  endTime : Option Time
  suspiciousEvents : List EventDoc
  createdAt : Option Time
  updatedAt : Option Time
deriving DecidableEq

/-- A user document as inserted by `seed_super_admin` (no timestamps). -/
structure UserDoc where
  uid : String
  role : String
  email : String
  name : String
  password : String
  createdAt : Option Time
  updatedAt : Option Time
deriving DecidableEq

/-- The authenticated caller as produced by `get_current_user`. -/
structure UserInfo where
  uid : String
  email : String
  role : String
deriving DecidableEq

/-- The Mongo database: collections `user`, `quiz` and `attempt`.  Attempts
are keyed by their store-assigned `_id`. -/
structure DB where
  users : List UserDoc
  quizzes : List QuizDoc
  attempts : List (String × AttemptDoc)
deriving DecidableEq

/-- Unhandled Python exception inside `calculate_score` (`q["id"]` on a
question dict with no `"id"` key raises `KeyError`). -/
inductive PyErr where
  | keyError
deriving DecidableEq

/-- The distinguishable failure modes of an endpoint: the `HTTPException`s
raised by the handlers, plus `pyError` for an unhandled Python exception
(which FastAPI surfaces as a 500, not as any of the former). -/
inductive ApiErr where
  | notFound
  | unauthorized
  | forbidden
  | pyError
deriving DecidableEq

/-- One iteration of the inner loop of `calculate_score`:
`if opt.get("id") == chosen and opt.get("isCorrect"): score += points`.
`opt.get("isCorrect")` is truthy exactly when the stored value is `True`.
Note the loop does not break after a match. -/
def optionStep (chosen : Option String) (pts : Int) (acc : Int) (opt : OptionDoc) : Int :=
  if opt.id = chosen ∧ opt.isCorrect = some true then acc + pts else acc

/-- The per-question body of `calculate_score`'s outer loop:
`chosen = answers.get(q["id"])` (raising `KeyError` when the question dict
has no `"id"`), then the inner loop over `q.get("options", [])` adding
`q.get("points", 1)` per matching correct option. -/
def questionScore (answers : Answers) (q : QuestionDoc) : Except PyErr Int :=
  match q.id with
  | none => .error .keyError
  | some qid =>
    .ok ((q.options.getD []).foldl (optionStep (dictGet answers qid) (q.points.getD 1)) 0)

/-- The outer loop of `calculate_score` over the question list, threading the
`score` accumulator; a `KeyError` aborts the whole call. -/
def scoreQuestions (answers : Answers) (qs : List QuestionDoc) (acc : Int) : Except PyErr Int :=
  match qs with
  | [] => .ok acc
  | q :: rest =>
    match questionScore answers q with
    | .error e => .error e
    | .ok v => scoreQuestions answers rest (acc + v)

/-- `calculate_score(quiz, answers)` from `backend/main.py`: iterates
`quiz.get("questions", [])` accumulating `score`.  (The local `total`
accumulator in the source is dead code and does not affect the result; it is
modelled separately as `maxScore`.) -/
def calculate_score (quiz : QuizDoc) (answers : Answers) : Except PyErr Int :=
  scoreQuestions answers (quiz.questions.getD []) 0

/-- One step of the `total` accumulator of `calculate_score`:
`total += q.get("points", 1)`. -/
def pointsStep (t : Int) (q : QuestionDoc) : Int :=
  t + q.points.getD 1

/-- The `total` accumulator of `calculate_score`: the sum of
`q.get("points", 1)` over `quiz.get("questions", [])` — the maximum possible
score. -/
def maxScore (quiz : QuizDoc) : Int :=
  (quiz.questions.getD []).foldl pointsStep 0

/-- `db["quiz"].find_one({"code": code})`: first quiz whose `code` matches. -/
def findQuizByCodeIn : List QuizDoc → String → Option QuizDoc
  | [], _ => none
  | q :: rest, c => if q.code = c then some q else findQuizByCodeIn rest c

def findQuizByCode (db : DB) (c : String) : Option QuizDoc :=
  findQuizByCodeIn db.quizzes c

/-- `db["quiz"].find_one({"id": i})`: first quiz whose `id` matches. -/
def findQuizByIdIn : List QuizDoc → String → Option QuizDoc
  | [], _ => none
  | q :: rest, i => if q.id = i then some q else findQuizByIdIn rest i

def findQuizById (db : DB) (i : String) : Option QuizDoc :=
  findQuizByIdIn db.quizzes i

/-- `db["attempt"].find_one({"_id": ObjectId(aid)})`. -/
def findAttemptIn : List (String × AttemptDoc) → String → Option AttemptDoc
  | [], _ => none
  | (i, att) :: rest, aid => if i = aid then some att else findAttemptIn rest aid

def findAttempt (db : DB) (aid : String) : Option AttemptDoc :=
  findAttemptIn db.attempts aid

/-- `db["attempt"].update_one({"_id": ObjectId(aid)}, ...)`: rewrites the
first document whose `_id` matches, leaves the rest alone; a no-op when no
document matches. -/
def updateAttemptFirst (l : List (String × AttemptDoc)) (aid : String)
    (f : AttemptDoc → AttemptDoc) : List (String × AttemptDoc) :=
  match l with
  | [] => []
  | (i, att) :: rest =>
    if i = aid then (i, f att) :: rest else (i, att) :: updateAttemptFirst rest aid f

/-- `opt.pop("isCorrect", None)` on one option dict. -/
def stripOptionDoc (o : OptionDoc) : OptionDoc :=
  { o with isCorrect := none }

/-- The per-question body of the stripping loop in `get_quiz_by_code`:
pops `isCorrect` from each of `q.get("options", [])`; an absent `options`
key stays absent. -/
def stripQuestionDoc (q : QuestionDoc) : QuestionDoc :=
  { q with options := q.options.map (fun os => os.map stripOptionDoc) }

/-- The correctness-hiding loop of `get_quiz_by_code`, applied to the fetched
quiz document: strips `isCorrect` from every option of every question of
`quiz.get("questions", [])`; an absent `questions` key stays absent. -/
def stripIsCorrect (quiz : QuizDoc) : QuizDoc :=
  { quiz with questions := quiz.questions.map (fun qs => qs.map stripQuestionDoc) }

/-- `True` when no option anywhere in the quiz's question tree carries an
`isCorrect` key. -/
def quizNoCorrect (quiz : QuizDoc) : Bool :=
  (quiz.questions.getD []).all (fun q => (q.options.getD []).all (fun o => o.isCorrect == none))

/-- An option document with the `isCorrect` field forgotten: the shape the
public view is compared against. -/
structure OptionPub where
  id : Option String
  text : Option String
deriving DecidableEq

structure QuestionPub where
  id : Option String
  text : Option String
  options : Option (List OptionPub)
  points : Option Int
deriving DecidableEq

structure QuizPub where
  id : String
  title : String
  code : String
  timeLimit : Int
  version : Int
  createdBy : String
  questions : Option (List QuestionPub)
  createdAt : Option Time
  updatedAt : Option Time
deriving DecidableEq

/-- Forget the `isCorrect` field of an option, keeping everything else. -/
def forgetOption (o : OptionDoc) : OptionPub :=
  ⟨o.id, o.text⟩

def forgetQuestion (q : QuestionDoc) : QuestionPub :=
  ⟨q.id, q.text, q.options.map (fun os => os.map forgetOption), q.points⟩

/-- The quiz with all `isCorrect` information forgotten: two quizzes are
"structurally identical except for `isCorrect`" iff they have the same
`forgetQuiz` image. -/
def forgetQuiz (z : QuizDoc) : QuizPub :=
  ⟨z.id, z.title, z.code, z.timeLimit, z.version, z.createdBy,
    z.questions.map (fun qs => qs.map forgetQuestion), z.createdAt, z.updatedAt⟩

/-- `GET /quizzes/{code}` (`get_quiz_by_code`).  Its auth dependency is a
lambda that ignores the `Authorization` header and returns `None`, so the
handler performs no credential check; `authHeader` is carried to state that.
The handler only reads from the store, so the returned `DB` is unchanged. -/
def get_quiz_by_code (authHeader : Option String) (db : DB) (code : String) :
    (Except ApiErr QuizDoc) × DB :=
  match findQuizByCode db code with
  | none => (.error .notFound, db)
  | some quiz => (.ok (stripIsCorrect quiz), db)

/-- The attempt document built by `start_attempt`. -/
def newAttempt (quizId studentId : String) (now : Time) : AttemptDoc :=
  { quizId := quizId
    studentId := studentId
    answers := []
    score := 0
    startTime := now
    endTime := none
    suspiciousEvents := []
    createdAt := none
    updatedAt := none }

/-- `POST /attempts/start` (`start_attempt`).  No auth dependency at all.
`newId` is the `_id` the store assigns to the inserted document
(`insert_one(...).inserted_id`). -/
def start_attempt (authHeader : Option String) (db : DB) (now : Time) (newId : String)
    (quizCode studentId : String) : (Except ApiErr String) × DB :=
  match findQuizByCode db quizCode with
  | none => (.error .notFound, db)
  | some quiz =>
    (.ok newId, { db with attempts := db.attempts ++ [(newId, newAttempt quiz.id studentId now)] })

/-- `POST /attempts/submit` (`submit_attempt`).  No auth dependency.  When
the attempt's quiz does not resolve, the source calls
`calculate_score(None, answers)` which raises `AttributeError`
(`None.get`) — an unhandled exception, modelled as `.pyError`, not the
`HTTPException(404)` of the missing-attempt branch. -/
def submit_attempt (authHeader : Option String) (db : DB) (now : Time) (attemptId : String)
    (answers : Answers) : (Except ApiErr Int) × DB :=
  match findAttempt db attemptId with
  | none => (.error .notFound, db)
  | some att =>
    match findQuizById db att.quizId with
    | none => (.error .pyError, db)
    | some quiz =>
      match calculate_score quiz answers with
      | .error _ => (.error .pyError, db)
      | .ok score =>
        let atts := updateAttemptFirst db.attempts attemptId
          (fun a => { a with answers := answers, score := score, endTime := some now })
        (.ok score, { db with attempts := atts })

/-- `POST /monitor/log` (`log_event`).  No auth dependency and **no attempt
existence check**: the `$push` update matches zero or one document and the
handler returns `{"status": "logged"}` unconditionally. -/
def log_event (authHeader : Option String) (db : DB) (now : Time) (attemptId ty : String)
    (meta : Meta) : (Except ApiErr String) × DB :=
  let atts := updateAttemptFirst db.attempts attemptId
    (fun a => { a with suspiciousEvents := a.suspiciousEvents ++ [⟨ty, meta, now⟩] })
  (.ok "logged", { db with attempts := atts })

/-- Request body of `POST /quizzes`. -/
structure QuizCreateRequest where
  title : String
  timeLimit : Int
  questions : List QuestionDoc
deriving DecidableEq

/-- `POST /quizzes` (`create_quiz`).  `user` is the outcome of the
`get_current_user` dependency (`none` = missing/invalid credential, 401).
`code` is the value produced by `generate_quiz_code()`; the inserted
document sets **both** `"id"` and `"code"` to it. -/
def create_quiz (user : Option UserInfo) (db : DB) (now : Time) (code : String)
    (data : QuizCreateRequest) : (Except ApiErr (String × String)) × DB :=
  match user with
  | none => (.error .unauthorized, db)
  | some u =>
    if u.role = "superadmin" ∨ u.role = "teacher" then
      (.ok (code, code),
        { db with quizzes := db.quizzes ++
            [{ id := code
               title := data.title
               code := code
               timeLimit := data.timeLimit
               version := 1
               createdBy := u.uid
               questions := some data.questions
               createdAt := some now
               updatedAt := some now }] })
    else (.error .forbidden, db)

/-- `seed_super_admin()`: inserts the admin user (with **no**
`createdAt`/`updatedAt`) unless a user with that email already exists.
`hash` is the bcrypt hash of `"admin123"`. -/
def seedUserDoc (hash : String) : UserDoc :=
  { uid := "admin-1"
    role := "superadmin"
    email := "admin@university.edu"
    name := "Super Admin"
    password := hash
    createdAt := none
    updatedAt := none }

def seed_super_admin (db : DB) (hash : String) : DB :=
  match db.users.find? (fun u => u.email == "admin@university.edu") with
  | some _ => db
  | none => { db with users := db.users ++ [seedUserDoc hash] }


/-!
### Concrete documents used by counterexamples and witnesses
-/

/-- A quiz whose single question pathologically has two options sharing the
id `"a"`, both flagged correct. -/
def c1DupQuiz : QuizDoc :=
  ⟨"QZ1", "Dup", "DUPQZ1", 10, 1, "t1",
    some [⟨some "q1", none,
      some [⟨some "a", none, some true⟩, ⟨some "a", none, some true⟩], some 1⟩],
    none, none⟩

def c1DupAnswers : Answers := [("q1", "a")]

/-- A two-question well-formed quiz (points 1 and 2). -/
def c1Quiz : QuizDoc :=
  ⟨"QZ2", "Two", "TWOQZ2", 10, 1, "t1",
    some [⟨some "q1", none,
            some [⟨some "a", none, some false⟩, ⟨some "b", none, some true⟩], some 1⟩,
          ⟨some "q2", none, some [⟨some "c", none, some true⟩], some 2⟩],
    none, none⟩

def c1Answers : Answers := [("q1", "b")]

/-- An attempt whose `quizId` references no stored quiz. -/
def c2DanglingAttempt : AttemptDoc := ⟨"QZ9", "s1", [], 0, 0, none, [], none, none⟩

def c2Db : DB := ⟨[], [], [("a1", c2DanglingAttempt)]⟩

def c2wQuiz : QuizDoc :=
  ⟨"QZ3", "W", "WQZ003", 10, 1, "t1",
    some [⟨some "q1", none, some [⟨some "a", none, some true⟩], some 1⟩], none, none⟩

def c2wAttempt : AttemptDoc := ⟨"QZ3", "s2", [], 0, 3, none, [], none, none⟩

def c2wDb : DB := ⟨[], [c2wQuiz], [("a2", c2wAttempt)]⟩

def c2wAnswers : Answers := [("q1", "a")]

def c3Quiz : QuizDoc :=
  ⟨"QZ4", "V", "VIEW01", 10, 1, "t1",
    some [⟨some "q1", some "Q?",
      some [⟨some "a", some "A", some true⟩, ⟨some "b", some "B", some false⟩], some 1⟩],
    some 0, some 0⟩

def c3Db : DB := ⟨[], [c3Quiz], []⟩

/-- A quiz containing a question dict with no `"id"` key. -/
def c4BadQuiz : QuizDoc :=
  ⟨"QZ5", "Bad", "BADQZ5", 10, 1, "t1", some [⟨none, none, some [], none⟩], none, none⟩

/-- A quiz dict with no `"questions"` key. -/
def c4NoQuestionsQuiz : QuizDoc := ⟨"QZ6", "NoQ", "NOQ006", 10, 1, "t1", none, none, none⟩

def c4GoodQuiz : QuizDoc :=
  ⟨"QZ7", "Good", "GOOD07", 10, 1, "t1",
    some [⟨some "q1", none, some [⟨some "a", none, some true⟩], some 1⟩], none, none⟩

def c5EmptyDb : DB := ⟨[], [], []⟩

def c5wAttempt : AttemptDoc := ⟨"QZ8", "s3", [], 0, 1, none, [], none, none⟩

def c5wDb : DB := ⟨[], [], [("a5", c5wAttempt)]⟩

def c6Quiz : QuizDoc := ⟨"QZ10", "S", "STQZ10", 10, 1, "t1", some [], none, none⟩

def c6Db : DB := ⟨[], [c6Quiz], []⟩

/-- A quiz whose question has an option dict with no `"id"` key flagged
correct: with an empty answers dict, `opt.get("id") == chosen` compares
`None == None` in the source and awards the points. -/
def c7PhantomQuiz : QuizDoc :=
  ⟨"QZ11", "Ph", "PHQZ11", 10, 1, "t1",
    some [⟨some "q1", none, some [⟨none, none, some true⟩], none⟩], none, none⟩

def c7Quiz : QuizDoc :=
  ⟨"QZ12", "W7", "W7QZ12", 10, 1, "t1",
    some [⟨some "q1", none, some [⟨some "a", none, some true⟩], some 1⟩], none, none⟩

def c7Answers : Answers := [("q1", "a")]

def c7Question : QuestionDoc := ⟨some "q1", none, some [⟨some "a", none, some true⟩], some 1⟩

def c8Admin : UserInfo := ⟨"admin-1", "admin@university.edu", "superadmin"⟩

def c8Req : QuizCreateRequest := ⟨"Quiz A", 30, []⟩

def c8Db : DB := ⟨[], [], []⟩

/-- The quiz document `create_quiz` inserts for `c8Req` with generated code
`"ABC123"` at time 0: its `id` and `code` coincide. -/
def c8CreatedQuiz : QuizDoc :=
  ⟨"ABC123", "Quiz A", "ABC123", 30, 1, "admin-1", some [], some 0, some 0⟩

def c8wTeacher : UserInfo := ⟨"t-9", "t@u.edu", "teacher"⟩

def c8wReq : QuizCreateRequest := ⟨"Quiz B", 15, []⟩

def c8wDb : DB := ⟨[], [], []⟩

/-- The quiz `create_quiz` inserts for `c8wReq` under code `"XYZ789"` at
time 3. -/
def c8wCreatedQuiz : QuizDoc :=
  ⟨"XYZ789", "Quiz B", "XYZ789", 15, 1, "t-9", some [], some 3, some 3⟩

def c9Quiz : QuizDoc := ⟨"QZ13", "T9", "C9QZ13", 10, 1, "t1", some [], some 0, some 0⟩

def c9Db : DB := ⟨[], [c9Quiz], []⟩

def c9wUser : UserInfo := ⟨"adm-2", "a2@u.edu", "superadmin"⟩

def c9wReq : QuizCreateRequest := ⟨"Quiz C", 20, []⟩

def c9wQuiz : QuizDoc := ⟨"QW9", "W9", "C9WQZ1", 5, 1, "t1", some [], some 0, some 0⟩

def c9wDb : DB := ⟨[], [c9wQuiz], []⟩

def c10Db : DB := ⟨[], [], []⟩

/-!
### Scoring-engine lemmas
-/

/-- If no option of the list matches the chosen id as a correct option, the
inner loop of `calculate_score` leaves the accumulator unchanged. -/
theorem foldl_optionStep_nomatch (chosen : Option String) (pts : Int) (l : List OptionDoc)
    (h : ∀ o ∈ l, ¬(o.id = chosen ∧ o.isCorrect = some true)) (acc : Int) :
    l.foldl (optionStep chosen pts) acc = acc := by
  induction l generalizing acc with
  | nil => rfl
  | cons o rest ih =>
    have ho := h o (by simp)
    have hrest : ∀ o' ∈ rest, ¬(o'.id = chosen ∧ o'.isCorrect = some true) :=
      fun o' ho' => h o' (by simp [ho'])
    simp only [List.foldl_cons, optionStep, if_neg ho]
    exact ih hrest acc

/-- With pairwise-distinct option ids and nonnegative points, the inner loop
adds at most `pts` to the accumulator, and never subtracts. -/
theorem foldl_optionStep_bound (chosen : Option String) (pts : Int) (hp : 0 ≤ pts)
    (l : List OptionDoc) (hnd : (l.map OptionDoc.id).Nodup) (acc : Int) :
    acc ≤ l.foldl (optionStep chosen pts) acc ∧
      l.foldl (optionStep chosen pts) acc ≤ acc + pts := by
  induction l generalizing acc with
  | nil => exact ⟨le_refl acc, by simpa using hp⟩
  | cons o rest ih =>
    rw [List.map_cons, List.nodup_cons] at hnd
    obtain ⟨hnotin, hndrest⟩ := hnd
    by_cases hm : o.id = chosen ∧ o.isCorrect = some true
    · have hrest : ∀ o' ∈ rest, ¬(o'.id = chosen ∧ o'.isCorrect = some true) := by
        intro o' ho' hc
        apply hnotin
        have hoo : o'.id = o.id := by rw [hc.1, hm.1]
        rw [← hoo]
        exact List.mem_map_of_mem OptionDoc.id ho'
      simp only [List.foldl_cons, optionStep, if_pos hm]
      rw [foldl_optionStep_nomatch chosen pts rest hrest (acc + pts)]
      exact ⟨by linarith, le_refl _⟩
    · simp only [List.foldl_cons, optionStep, if_neg hm]
      exact ih hndrest acc

/-- A question with pairwise-distinct option ids and nonnegative points
contributes at most its points. -/
theorem questionScore_le (answers : Answers) (q : QuestionDoc) (v : Int)
    (h : questionScore answers q = .ok v)
    (hnd : ((q.options.getD []).map OptionDoc.id).Nodup)
    (hp : 0 ≤ q.points.getD 1) : v ≤ q.points.getD 1 := by
  unfold questionScore at h
  cases hid : q.id with
  | none => rw [hid] at h; simp at h
  | some qid =>
    rw [hid] at h
    have hv := Except.ok.inj h
    have hb := foldl_optionStep_bound (dictGet answers qid) (q.points.getD 1) hp
      (q.options.getD []) hnd 0
    rw [hv] at hb
    linarith [hb.2]

theorem foldl_pointsStep_mono (qs : List QuestionDoc) (a b : Int) (h : a ≤ b) :
    qs.foldl pointsStep a ≤ qs.foldl pointsStep b := by
  induction qs generalizing a b with
  | nil => exact h
  | cons q rest ih =>
    simp only [List.foldl_cons, pointsStep]
    exact ih _ _ (by linarith)

/-- The outer loop of `calculate_score` stays below the running `total`
accumulator, under distinct option ids and nonnegative points. -/
theorem scoreQuestions_le (answers : Answers) :
    ∀ (qs : List QuestionDoc) (acc s : Int),
      (∀ q ∈ qs, ((q.options.getD []).map OptionDoc.id).Nodup) →
      (∀ q ∈ qs, 0 ≤ q.points.getD 1) →
      scoreQuestions answers qs acc = .ok s →
      s ≤ qs.foldl pointsStep acc := by
  intro qs
  induction qs with
  | nil =>
    intro acc s _ _ h
    simpa using le_of_eq (Except.ok.inj h).symm
  | cons q rest ih =>
    intro acc s hnd hp h
    unfold scoreQuestions at h
    cases hq : questionScore answers q with
    | error e => rw [hq] at h; simp at h
    | ok v =>
      rw [hq] at h
      have hv := questionScore_le answers q v hq (hnd q (by simp)) (hp q (by simp))
      have hrec := ih (acc + v) s (fun q' hq' => hnd q' (by simp [hq']))
        (fun q' hq' => hp q' (by simp [hq'])) h
      calc s ≤ rest.foldl pointsStep (acc + v) := hrec
        _ ≤ rest.foldl pointsStep (acc + q.points.getD 1) :=
          foldl_pointsStep_mono rest _ _ (by linarith)
        _ = (q :: rest).foldl pointsStep acc := by simp [pointsStep]

/-!
### Claim C1 — score bound
-/

/-- C1 counterexample: on the quiz `c1DupQuiz`, whose single 1-point question
has two options that share the id `"a"` and are both flagged correct, the
answer `{"q1": "a"}` scores 2 — the inner loop of `calculate_score` does not
break after a match, so each duplicate adds the points — exceeding the sum
of `q.points` (which is 1).  This refutes the claim that each question
contributes at most one option's points even under duplicated option ids. -/
theorem calculate_score_dup_exceeds_max :
    calculate_score c1DupQuiz c1DupAnswers = .ok 2 ∧ maxScore c1DupQuiz = 1 ∧
      ¬((2 : Int) ≤ 1) :=
  ⟨rfl, rfl, by decide⟩

/-- C1 (amended): for every quiz whose questions each have pairwise-distinct
option ids and nonnegative points, every score `calculate_score` returns is
at most the sum of `q.points` over the questions (`maxScore`, the `total`
accumulator of the source). -/
theorem calculate_score_le_maxScore (quiz : QuizDoc) (answers : Answers) (s : Int)
    (hnd : ∀ q ∈ quiz.questions.getD [], ((q.options.getD []).map OptionDoc.id).Nodup)
    (hp : ∀ q ∈ quiz.questions.getD [], 0 ≤ q.points.getD 1)
    (h : calculate_score quiz answers = .ok s) : s ≤ maxScore quiz :=
  scoreQuestions_le answers (quiz.questions.getD []) 0 s hnd hp h

/-- Witness for C1 (amended) at the concrete two-question quiz `c1Quiz`. -/
theorem calculate_score_le_maxScore_witness :
    calculate_score c1Quiz c1Answers = .ok 1 ∧ (1 : Int) ≤ maxScore c1Quiz :=
  ⟨rfl, calculate_score_le_maxScore c1Quiz c1Answers 1 (by decide) (by decide) rfl⟩

/-!
### Claim C4 — totality and defensive defaults of the scoring engine
-/

/-- A question whose dict carries an `"id"` key never raises. -/
theorem questionScore_isOk (answers : Answers) (q : QuestionDoc)
    (h : q.id.isSome = true) : (questionScore answers q).isOk = true := by
  unfold questionScore
  cases hid : q.id with
  | none => rw [hid] at h; simp at h
  | some qid => rfl

/-- The outer loop never raises when every question carries an `"id"` key. -/
theorem scoreQuestions_isOk (answers : Answers) :
    ∀ (qs : List QuestionDoc) (acc : Int),
      (∀ q ∈ qs, q.id.isSome = true) →
      (scoreQuestions answers qs acc).isOk = true := by
  intro qs
  induction qs with
  | nil => intro acc _; rfl
  | cons q rest ih =>
    intro acc h
    unfold scoreQuestions
    cases hq : questionScore answers q with
    | error e =>
      have hok := questionScore_isOk answers q (h q (by simp))
      rw [hq] at hok
      simp [Except.isOk, Except.toBool] at hok
    | ok v => exact ih (acc + v) (fun q' hq' => h q' (by simp [hq']))

/-- C4 counterexample: `calculate_score` applied to `c4BadQuiz` — a quiz
whose question dict has no `"id"` key — raises `KeyError` (`q["id"]` in the
source is a plain subscript, not a defensive `.get`), so the function does
have a failure condition, contradicting "never an error". -/
theorem calculate_score_keyError :
    calculate_score c4BadQuiz [] = .error .keyError := rfl

/-- C4 (amended): `CalculateScore` (a pure function here, hence deterministic
and side-effect-free) treats a quiz lacking a `questions` field as zero
questions, yielding 0; and it has no failure condition provided every
question dict carries an `"id"` key — a question without one raises
`KeyError`. -/
theorem calculate_score_total (quiz : QuizDoc) (answers : Answers) :
    (quiz.questions = none → calculate_score quiz answers = .ok 0) ∧
    ((∀ q ∈ quiz.questions.getD [], q.id.isSome = true) →
      (calculate_score quiz answers).isOk = true) := by
  constructor
  · intro h
    unfold calculate_score
    rw [h]
    rfl
  · intro h
    exact scoreQuestions_isOk answers (quiz.questions.getD []) 0 h

/-- Witness for C4 (amended): a quiz with no `questions` key scores 0, and a
well-formed quiz never errors. -/
theorem calculate_score_total_witness :
    calculate_score c4NoQuestionsQuiz [] = .ok 0 ∧
      (calculate_score c4GoodQuiz [("q1", "a")]).isOk = true :=
  ⟨(calculate_score_total c4NoQuestionsQuiz []).1 rfl,
    (calculate_score_total c4GoodQuiz [("q1", "a")]).2 (by decide)⟩

/-!
### Claim C7 — empty and irrelevant answers
-/

theorem dictGet_cons_ne (k v : String) (a : Answers) (k' : String) (h : ¬k = k') :
    dictGet ((k, v) :: a) k' = dictGet a k' := by
  have e : dictGet ((k, v) :: a) k' = if k = k' then some v else dictGet a k' := rfl
  rw [e, if_neg h]

/-- The value of `questionScore` on a question whose dict carries an id. -/
theorem questionScore_some (answers : Answers) (q : QuestionDoc) (qid : String)
    (hid : q.id = some qid) :
    questionScore answers q =
      .ok ((q.options.getD []).foldl
        (optionStep (dictGet answers qid) (q.points.getD 1)) 0) := by
  unfold questionScore
  rw [hid]

/-- An unanswered question all of whose options carry ids contributes 0. -/
theorem questionScore_unanswered (a : Answers) (q : QuestionDoc) (qid : String)
    (hid : q.id = some qid) (hch : dictGet a qid = none)
    (hopts : ∀ o ∈ q.options.getD [], o.id.isSome = true) :
    questionScore a q = .ok 0 := by
  rw [questionScore_some a q qid hid, hch]
  rw [foldl_optionStep_nomatch]
  intro o ho hc
  have hso := hopts o ho
  rw [hc.1] at hso
  simp at hso

/-- If every question contributes `.ok 0`, the outer loop returns its
accumulator unchanged. -/
theorem scoreQuestions_zeros (answers : Answers) :
    ∀ (qs : List QuestionDoc) (acc : Int),
      (∀ q ∈ qs, questionScore answers q = .ok 0) →
      scoreQuestions answers qs acc = .ok acc := by
  intro qs
  induction qs with
  | nil => intro acc _; rfl
  | cons q rest ih =>
    intro acc h
    unfold scoreQuestions
    rw [h q (by simp)]
    exact (ih (acc + 0) (fun q' hq' => h q' (by simp [hq']))).trans (by rw [add_zero])

/-- Adding an answer entry for a key that is not the id of any question of
the quiz leaves every question's contribution unchanged. -/
theorem questionScore_insert_irrelevant (a : Answers) (k v : String) (q : QuestionDoc)
    (h : ¬q.id = some k) :
    questionScore ((k, v) :: a) q = questionScore a q := by
  cases hid : q.id with
  | none =>
    unfold questionScore
    rw [hid]
  | some qid =>
    have hk : ¬k = qid := fun hkq => h (by rw [hid, hkq])
    rw [questionScore_some ((k, v) :: a) q qid hid, questionScore_some a q qid hid,
      dictGet_cons_ne k v a qid hk]

theorem scoreQuestions_insert_irrelevant (a : Answers) (k v : String) :
    ∀ (qs : List QuestionDoc) (acc : Int),
      (∀ q ∈ qs, ¬q.id = some k) →
      scoreQuestions ((k, v) :: a) qs acc = scoreQuestions a qs acc := by
  intro qs
  induction qs with
  | nil => intro acc _; rfl
  | cons q rest ih =>
    intro acc h
    unfold scoreQuestions
    rw [questionScore_insert_irrelevant a k v q (h q (by simp))]
    cases hq : questionScore a q with
    | error e => rfl
    | ok w => exact ih (acc + w) (fun q' hq' => h q' (by simp [hq']))

/-- C7 counterexample: on `c7PhantomQuiz` — one question whose only option
dict lacks an `"id"` key but is flagged correct — the empty answer map
scores 1, not 0: in the source both `opt.get("id")` and
`answers.get("q1")` evaluate to `None`, `None == None` holds, and the
option's points are awarded.  This refutes `CalculateScore(Q, {}) = 0` for
every quiz Q. -/
theorem calculate_score_empty_nonzero :
    calculate_score c7PhantomQuiz [] = .ok 1 ∧
      (Except.ok 1 : Except PyErr Int) ≠ .ok 0 :=
  ⟨rfl, fun h => absurd (Except.ok.inj h) (by decide)⟩

/-- C7 (amended): provided every question and every option of the quiz
carries an `"id"` key (as any well-formed quiz does), the empty answer map
scores 0; an answer entry whose key is not the id of any stored question
never changes the result; and an unanswered question whose options all carry
ids contributes 0. -/
theorem calculate_score_empty_and_ignored (quiz : QuizDoc) (a : Answers) (k v : String)
    (q : QuestionDoc) (qid : String) :
    ((∀ q' ∈ quiz.questions.getD [],
        q'.id.isSome = true ∧ ∀ o ∈ q'.options.getD [], o.id.isSome = true) →
      calculate_score quiz [] = .ok 0) ∧
    ((∀ q' ∈ quiz.questions.getD [], ¬q'.id = some k) →
      calculate_score quiz ((k, v) :: a) = calculate_score quiz a) ∧
    (q.id = some qid → dictGet a qid = none →
      (∀ o ∈ q.options.getD [], o.id.isSome = true) →
      questionScore a q = .ok 0) := by
  refine ⟨?_, ?_, ?_⟩
  · intro h
    unfold calculate_score
    apply scoreQuestions_zeros
    intro q' hq'
    obtain ⟨hid, hopts⟩ := h q' hq'
    obtain ⟨qid', hqid'⟩ := Option.isSome_iff_exists.mp hid
    exact questionScore_unanswered [] q' qid' hqid' rfl hopts
  · intro h
    exact scoreQuestions_insert_irrelevant a k v (quiz.questions.getD []) 0 h
  · intro h1 h2 h3
    exact questionScore_unanswered a q qid h1 h2 h3

/-- Witness for C7 (amended) at the concrete quiz `c7Quiz`. -/
theorem calculate_score_empty_and_ignored_witness :
    calculate_score c7Quiz [] = .ok 0 ∧
      calculate_score c7Quiz (("zz", "y") :: c7Answers) = calculate_score c7Quiz c7Answers ∧
      questionScore [] c7Question = .ok 0 :=
  ⟨(calculate_score_empty_and_ignored c7Quiz [] "zz" "y" c7Question "q1").1 (by decide),
    (calculate_score_empty_and_ignored c7Quiz c7Answers "zz" "y" c7Question "q1").2.1
      (by decide),
    (calculate_score_empty_and_ignored c7Quiz [] "zz" "y" c7Question "q1").2.2
      rfl rfl (by decide)⟩

/-!
### Claim C3 — public view strips correctness
-/

theorem all_noCorrect_stripped (os : List OptionDoc) :
    (os.map stripOptionDoc).all (fun o => o.isCorrect == none) = true := by
  induction os with
  | nil => rfl
  | cons o rest ih =>
    simp only [List.map_cons, List.all_cons, Bool.and_eq_true]
    exact ⟨rfl, ih⟩

theorem strip_question_noCorrect (q : QuestionDoc) :
    ((stripQuestionDoc q).options.getD []).all (fun o => o.isCorrect == none) = true := by
  cases q with
  | mk id text options points =>
    cases options with
    | none => rfl
    | some os =>
      show (os.map stripOptionDoc).all (fun o => o.isCorrect == none) = true
      exact all_noCorrect_stripped os

/-- The public view contains no `isCorrect` key anywhere in its tree. -/
theorem strip_quizNoCorrect (z : QuizDoc) : quizNoCorrect (stripIsCorrect z) = true := by
  cases z with
  | mk id title code tl ver cb questions ca ua =>
    cases questions with
    | none => rfl
    | some qs =>
      show (qs.map stripQuestionDoc).all
        (fun q => (q.options.getD []).all (fun o => o.isCorrect == none)) = true
      rw [List.all_eq_true]
      intro q hq
      obtain ⟨q0, hq0, rfl⟩ := List.mem_map.mp hq
      exact strip_question_noCorrect q0

theorem forgetQuestion_strip (q : QuestionDoc) :
    forgetQuestion (stripQuestionDoc q) = forgetQuestion q := by
  cases q with
  | mk id text options points =>
    cases options with
    | none => rfl
    | some os =>
      show QuestionPub.mk id text (some ((os.map stripOptionDoc).map forgetOption)) points =
        QuestionPub.mk id text (some (os.map forgetOption)) points
      have hfo : forgetOption ∘ stripOptionDoc = forgetOption := funext (fun o => rfl)
      rw [List.map_map, hfo]

/-- Stripping `isCorrect` changes nothing else: both sides have the same
`isCorrect`-free projection. -/
theorem forgetQuiz_strip (z : QuizDoc) : forgetQuiz (stripIsCorrect z) = forgetQuiz z := by
  cases z with
  | mk id title code tl ver cb questions ca ua =>
    cases questions with
    | none => rfl
    | some qs =>
      show QuizPub.mk id title code tl ver cb
          (some ((qs.map stripQuestionDoc).map forgetQuestion)) ca ua =
        QuizPub.mk id title code tl ver cb (some (qs.map forgetQuestion)) ca ua
      have hfg : forgetQuestion ∘ stripQuestionDoc = forgetQuestion :=
        funext forgetQuestion_strip
      rw [List.map_map, hfg]

/-- C3: whenever fetching a quiz by code succeeds, the returned document has
no `isCorrect` field anywhere in its question/option tree, the store is
unchanged (the handler performs no write; it mutates only the fetched
copy), and the view is structurally identical to the stored quiz except for
the removed `isCorrect` fields. -/
theorem get_quiz_by_code_public_view (auth : Option String) (db : DB) (code : String)
    (v : QuizDoc) (db' : DB)
    (h : get_quiz_by_code auth db code = (.ok v, db')) :
    quizNoCorrect v = true ∧ db' = db ∧
      ∃ q, findQuizByCode db code = some q ∧ forgetQuiz v = forgetQuiz q := by
  unfold get_quiz_by_code at h
  cases hf : findQuizByCode db code with
  | none => rw [hf] at h; simp at h
  | some q =>
    rw [hf] at h
    have h1 : (Except.ok (stripIsCorrect q) : Except ApiErr QuizDoc) = .ok v :=
      congrArg Prod.fst h
    have h2 : db = db' := congrArg Prod.snd h
    have hv : stripIsCorrect q = v := Except.ok.inj h1
    subst hv
    exact ⟨strip_quizNoCorrect q, h2.symm, q, rfl, forgetQuiz_strip q⟩

/-- Witness for C3 at the concrete store `c3Db`. -/
theorem get_quiz_by_code_public_view_witness :
    quizNoCorrect (stripIsCorrect c3Quiz) = true ∧ c3Db = c3Db ∧
      ∃ q, findQuizByCode c3Db "VIEW01" = some q ∧
        forgetQuiz (stripIsCorrect c3Quiz) = forgetQuiz q :=
  get_quiz_by_code_public_view none c3Db "VIEW01" (stripIsCorrect c3Quiz) c3Db rfl

/-!
### Attempt-store lemmas (`find_one` / `update_one` interaction)
-/

theorem findAttemptIn_cons (i : String) (att : AttemptDoc) (rest : List (String × AttemptDoc))
    (aid : String) :
    findAttemptIn ((i, att) :: rest) aid =
      if i = aid then some att else findAttemptIn rest aid := rfl

theorem updateAttemptFirst_cons (i : String) (att : AttemptDoc)
    (rest : List (String × AttemptDoc)) (aid : String) (f : AttemptDoc → AttemptDoc) :
    updateAttemptFirst ((i, att) :: rest) aid f =
      if i = aid then (i, f att) :: rest
      else (i, att) :: updateAttemptFirst rest aid f := rfl

/-- `update_one` on an id that matches no document is a no-op. -/
theorem updateAttemptFirst_missing (aid : String) (f : AttemptDoc → AttemptDoc) :
    ∀ l : List (String × AttemptDoc), findAttemptIn l aid = none →
      updateAttemptFirst l aid f = l := by
  intro l
  induction l with
  | nil => intro _; rfl
  | cons p rest ih =>
    obtain ⟨i, att⟩ := p
    intro h
    rw [findAttemptIn_cons] at h
    rw [updateAttemptFirst_cons]
    by_cases hi : i = aid
    · rw [if_pos hi] at h; exact absurd h (by simp)
    · rw [if_neg hi] at h
      rw [if_neg hi, ih h]

/-- After `update_one`, `find_one` on the same id sees the rewritten
document. -/
theorem findAttemptIn_update_self (aid : String) (f : AttemptDoc → AttemptDoc) :
    ∀ (l : List (String × AttemptDoc)) (att : AttemptDoc), findAttemptIn l aid = some att →
      findAttemptIn (updateAttemptFirst l aid f) aid = some (f att) := by
  intro l
  induction l with
  | nil => intro att h; exact absurd h (by simp [findAttemptIn])
  | cons p rest ih =>
    obtain ⟨i, a0⟩ := p
    intro att h
    rw [findAttemptIn_cons] at h
    rw [updateAttemptFirst_cons]
    by_cases hi : i = aid
    · rw [if_pos hi] at h
      rw [if_pos hi, findAttemptIn_cons, if_pos hi, Option.some.inj h]
    · rw [if_neg hi] at h
      rw [if_neg hi, findAttemptIn_cons, if_neg hi]
      exact ih att h

/-- `update_one` on one id leaves every other id's `find_one` unchanged. -/
theorem findAttemptIn_update_other (aid : String) (f : AttemptDoc → AttemptDoc)
    (other : String) (hne : ¬other = aid) :
    ∀ l : List (String × AttemptDoc),
      findAttemptIn (updateAttemptFirst l aid f) other = findAttemptIn l other := by
  intro l
  induction l with
  | nil => rfl
  | cons p rest ih =>
    obtain ⟨i, a0⟩ := p
    rw [updateAttemptFirst_cons]
    by_cases hi : i = aid
    · have ho : ¬i = other := fun hio => hne (hio ▸ hi)
      rw [if_pos hi, findAttemptIn_cons, findAttemptIn_cons, if_neg ho, if_neg ho]
    · rw [if_neg hi, findAttemptIn_cons, findAttemptIn_cons]
      by_cases ho : i = other
      · rw [if_pos ho, if_pos ho]
      · rw [if_neg ho, if_neg ho]
        exact ih

/-!
### Claim C5 — suspicious-event logging
-/

/-- C5 counterexample: `log_event` on an attempt id that resolves to nothing
(the store is empty) returns the `"logged"` ack and leaves the store
unchanged — the handler performs no existence check, so it does not fail
with `NotFound` as the claim states. -/
theorem log_event_missing_attempt_acks :
    log_event none c5EmptyDb 0 "missing" "tab-switch" none = (.ok "logged", c5EmptyDb) ∧
      (Except.ok "logged" : Except ApiErr String) ≠ .error .notFound :=
  ⟨rfl, fun h => Except.noConfusion h⟩

/-- C5 (amended): `log_event` performs no existence check and always returns
the `"logged"` ack; on an unresolved attempt id it changes nothing; on a
resolved one it appends exactly one record `{type, meta, time = now}` at the
end of that attempt's `suspiciousEvents` — leaving all existing events in
place and in order — and touches no other attempt and no other collection.
Three calls on the same attempt therefore yield the three events in call
order. -/
theorem log_event_spec (auth : Option String) (db : DB) (now : Time) (aid ty : String)
    (meta : Meta) :
    (log_event auth db now aid ty meta).1 = .ok "logged" ∧
    (findAttempt db aid = none → (log_event auth db now aid ty meta).2 = db) ∧
    (∀ att, findAttempt db aid = some att →
      findAttempt (log_event auth db now aid ty meta).2 aid =
        some { att with suspiciousEvents := att.suspiciousEvents ++ [⟨ty, meta, now⟩] }) ∧
    (∀ other, ¬other = aid →
      findAttempt (log_event auth db now aid ty meta).2 other = findAttempt db other) ∧
    (log_event auth db now aid ty meta).2.quizzes = db.quizzes ∧
    (log_event auth db now aid ty meta).2.users = db.users := by
  refine ⟨rfl, ?_, ?_, ?_, rfl, rfl⟩
  · intro h
    exact congrArg (fun l => DB.mk db.users db.quizzes l)
      (updateAttemptFirst_missing aid
        (fun a => { a with suspiciousEvents := a.suspiciousEvents ++ [⟨ty, meta, now⟩] })
        db.attempts h)
  · intro att h
    exact findAttemptIn_update_self aid
      (fun a => { a with suspiciousEvents := a.suspiciousEvents ++ [⟨ty, meta, now⟩] })
      db.attempts att h
  · intro other hne
    exact findAttemptIn_update_other aid
      (fun a => { a with suspiciousEvents := a.suspiciousEvents ++ [⟨ty, meta, now⟩] })
      other hne db.attempts

/-- Witness for C5 (amended): one call appends the event to `"a5"`, and
three consecutive calls yield the three events in call order. -/
theorem log_event_spec_witness :
    findAttempt (log_event none c5wDb 7 "a5" "tab-switch" none).2 "a5" =
      some { c5wAttempt with suspiciousEvents := [⟨"tab-switch", none, 7⟩] } ∧
    (log_event none (log_event none (log_event none c5wDb 7 "a5" "t1" none).2 8 "a5" "t2" none).2
        9 "a5" "t3" none).2.attempts =
      [("a5", { c5wAttempt with
        suspiciousEvents := [⟨"t1", none, 7⟩, ⟨"t2", none, 8⟩, ⟨"t3", none, 9⟩] })] :=
  ⟨(log_event_spec none c5wDb 7 "a5" "tab-switch" none).2.2.1 c5wAttempt rfl, rfl⟩

/-!
### Claim C2 — attempt submission
-/

/-- C2 counterexample: on `c2Db`, whose attempt `"a1"` references quiz id
`"QZ9"` while no quiz with that id is stored, `submit_attempt` does **not**
fail with `NotFound`: the source reaches `calculate_score(None, answers)`,
which raises `AttributeError` (an unhandled error surfaced as a 500),
modelled as `.pyError`; the store is left unchanged. -/
theorem submit_attempt_dangling_quiz :
    submit_attempt none c2Db 7 "a1" [] = (.error .pyError, c2Db) ∧
      (Except.error ApiErr.pyError : Except ApiErr Int) ≠ .error .notFound :=
  ⟨rfl, fun h => ApiErr.noConfusion (Except.error.inj h)⟩

/-- C2 (amended): `submit_attempt` fails with `NotFound` when the attempt id
does not resolve; when the attempt's referenced quiz does not resolve it
instead raises an unhandled error (`AttributeError` on `None`), not
`NotFound`; on success it returns exactly the Scoring Engine's result on
the resolved quiz and the supplied answers, and persists `answers`, `score`
and `endTime = now` on the attempt. -/
theorem submit_attempt_spec (auth : Option String) (db : DB) (now : Time) (aid : String)
    (ans : Answers) :
    (findAttempt db aid = none → submit_attempt auth db now aid ans = (.error .notFound, db)) ∧
    (∀ att, findAttempt db aid = some att → findQuizById db att.quizId = none →
      submit_attempt auth db now aid ans = (.error .pyError, db)) ∧
    (∀ att quiz s, findAttempt db aid = some att → findQuizById db att.quizId = some quiz →
      calculate_score quiz ans = .ok s →
      (submit_attempt auth db now aid ans).1 = .ok s ∧
      findAttempt (submit_attempt auth db now aid ans).2 aid =
        some { att with answers := ans, score := s, endTime := some now }) := by
  refine ⟨?_, ?_, ?_⟩
  · intro h
    unfold submit_attempt
    rw [h]
  · intro att h hq
    unfold submit_attempt
    simp only [h, hq]
  · intro att quiz s h hq hs
    unfold submit_attempt
    simp only [h, hq, hs]
    exact ⟨trivial, findAttemptIn_update_self aid
      (fun a => { a with answers := ans, score := s, endTime := some now })
      db.attempts att h⟩

/-- Witness for C2 (amended) on the concrete store `c2wDb`: submission
scores 1 and persists answers, score and end time. -/
theorem submit_attempt_spec_witness :
    (submit_attempt none c2wDb 9 "a2" c2wAnswers).1 = .ok 1 ∧
      findAttempt (submit_attempt none c2wDb 9 "a2" c2wAnswers).2 "a2" =
        some { c2wAttempt with answers := c2wAnswers, score := 1, endTime := some 9 } :=
  (submit_attempt_spec none c2wDb 9 "a2" c2wAnswers).2.2 c2wAttempt c2wQuiz 1 rfl rfl rfl

/-!
### Claim C6 — attempt creation
-/

/-- C6: `start_attempt` fails with `NotFound` exactly when no quiz has the
given code; on success it persists one new attempt in the Created state —
`answers = {}`, `score = 0`, `endTime = null`, `startTime = now`, no
suspicious events — referencing the found quiz's `id`, and returns the
store-assigned attempt id. -/
theorem start_attempt_spec (auth : Option String) (db : DB) (now : Time) (newId : String)
    (qc sid : String) :
    ((start_attempt auth db now newId qc sid).1 = .error .notFound ↔
      findQuizByCode db qc = none) ∧
    (findQuizByCode db qc = none →
      start_attempt auth db now newId qc sid = (.error .notFound, db)) ∧
    (∀ quiz, findQuizByCode db qc = some quiz →
      ∃ att : AttemptDoc,
        start_attempt auth db now newId qc sid =
          (.ok newId, { db with attempts := db.attempts ++ [(newId, att)] }) ∧
        att.quizId = quiz.id ∧ att.studentId = sid ∧ att.answers = [] ∧
        att.score = 0 ∧ att.startTime = now ∧ att.endTime = none ∧
        att.suspiciousEvents = []) := by
  refine ⟨⟨?_, ?_⟩, ?_, ?_⟩
  · intro h
    cases hf : findQuizByCode db qc with
    | none => rfl
    | some quiz =>
      unfold start_attempt at h
      rw [hf] at h
      exact absurd h (by simp)
  · intro h
    unfold start_attempt
    rw [h]
  · intro h
    unfold start_attempt
    rw [h]
  · intro quiz h
    refine ⟨newAttempt quiz.id sid now, ?_, rfl, rfl, rfl, rfl, rfl, rfl, rfl⟩
    unfold start_attempt
    rw [h]

/-- Witness for C6 at the concrete store `c6Db`: an unknown code fails with
`NotFound`; the stored code succeeds. -/
theorem start_attempt_spec_witness :
    start_attempt none c6Db 4 "att-1" "NOCODE" "stu-7" = (.error .notFound, c6Db) ∧
      (start_attempt none c6Db 4 "att-1" "STQZ10" "stu-7").1 = .ok "att-1" := by
  refine ⟨(start_attempt_spec none c6Db 4 "att-1" "NOCODE" "stu-7").2.1 rfl, ?_⟩
  obtain ⟨att, hEq, -⟩ :=
    (start_attempt_spec none c6Db 4 "att-1" "STQZ10" "stu-7").2.2 c6Quiz rfl
  rw [hEq]

/-!
### Claim C8 — quiz id vs. quiz code
-/

/-- Unfolding of `create_quiz` on an authenticated caller. -/
theorem create_quiz_some (u : UserInfo) (db : DB) (now : Time) (code : String)
    (data : QuizCreateRequest) :
    create_quiz (some u) db now code data =
      if u.role = "superadmin" ∨ u.role = "teacher" then
        (Except.ok (code, code),
          DB.mk db.users
            (db.quizzes ++ [QuizDoc.mk code data.title code data.timeLimit 1 u.uid
              (some data.questions) (some now) (some now)])
            db.attempts)
      else (Except.error ApiErr.forbidden, db) := rfl

/-- C8 counterexample: `create_quiz` with generated code `"ABC123"` inserts a
quiz whose internal `id` **equals** its public `code` — the source sets
`"id": code, "code": code` — refuting that the two are distinct. -/
theorem create_quiz_id_is_code :
    create_quiz (some c8Admin) c8Db 0 "ABC123" c8Req =
      (.ok ("ABC123", "ABC123"), ⟨[], [c8CreatedQuiz], []⟩) ∧
      c8CreatedQuiz.id = c8CreatedQuiz.code :=
  ⟨rfl, rfl⟩

/-- C8 (amended): for every quiz created by the system, the public `code`
**equals** the internal `id`: the generated code doubles as the quiz's id.
Any quiz in the store after a successful `create_quiz` either predates the
call or has `id = code = ` the generated code; the endpoint also returns
that code as both `id` and `code`. -/
theorem create_quiz_id_eq_code (u : UserInfo) (db : DB) (now : Time) (code : String)
    (data : QuizCreateRequest) (r : String × String) (db' : DB)
    (h : create_quiz (some u) db now code data = (.ok r, db')) :
    r = (code, code) ∧ ∀ z ∈ db'.quizzes, z ∈ db.quizzes ∨ (z.id = code ∧ z.code = code) := by
  rw [create_quiz_some] at h
  by_cases hrole : u.role = "superadmin" ∨ u.role = "teacher"
  · rw [if_pos hrole] at h
    have h1 : (Except.ok (code, code) : Except ApiErr (String × String)) = .ok r :=
      congrArg Prod.fst h
    have h2 : DB.mk db.users (db.quizzes ++ [QuizDoc.mk code data.title code data.timeLimit
        1 u.uid (some data.questions) (some now) (some now)]) db.attempts = db' :=
      congrArg Prod.snd h
    refine ⟨(Except.ok.inj h1).symm, ?_⟩
    intro z hz
    rw [← h2] at hz
    rcases List.mem_append.mp hz with hzl | hzr
    · exact Or.inl hzl
    · right
      have hz1 : z = QuizDoc.mk code data.title code data.timeLimit 1 u.uid
          (some data.questions) (some now) (some now) := by simpa using hzr
      rw [hz1]
      exact ⟨rfl, rfl⟩
  · rw [if_neg hrole] at h
    exact absurd (congrArg Prod.fst h) (by simp)

/-- Witness for C8 (amended) at a concrete teacher-created quiz. -/
theorem create_quiz_id_eq_code_witness :
    c8wCreatedQuiz ∈ c8wDb.quizzes ∨
      (c8wCreatedQuiz.id = "XYZ789" ∧ c8wCreatedQuiz.code = "XYZ789") :=
  (create_quiz_id_eq_code c8wTeacher c8wDb 3 "XYZ789" c8wReq ("XYZ789", "XYZ789")
    (create_quiz (some c8wTeacher) c8wDb 3 "XYZ789" c8wReq).2 rfl).2 c8wCreatedQuiz (by decide)

/-!
### Claim C9 — insertion timestamps
-/

/-- C9 counterexample: the attempt document inserted by `start_attempt`
carries neither `createdAt` nor `updatedAt` (the handler builds the dict
without them and inserts with `insert_one`, bypassing the
`create_document` helper that would add them), refuting that every inserted
document carries both timestamps. -/
theorem inserted_attempt_lacks_timestamps :
    ((start_attempt none c9Db 5 "a9" "C9QZ13" "s9").2.attempts.map
      (fun p => (p.2.createdAt, p.2.updatedAt))) = [(none, none)] := rfl

/-- C9 (amended): only `quiz` documents get `createdAt`/`updatedAt` at
insertion; the seeded `user` document and `attempt` documents are inserted
with neither timestamp. -/
theorem insertion_timestamps (u : UserInfo) (db : DB) (now : Time) (code : String)
    (data : QuizCreateRequest) (auth : Option String) (nid qc sid hash : String) :
    (∀ r db', create_quiz (some u) db now code data = (.ok r, db') →
      db'.quizzes.map (fun z => (z.createdAt, z.updatedAt)) =
        db.quizzes.map (fun z => (z.createdAt, z.updatedAt)) ++ [(some now, some now)]) ∧
    (∀ quiz, findQuizByCode db qc = some quiz →
      (start_attempt auth db now nid qc sid).2.attempts.map
          (fun p => (p.2.createdAt, p.2.updatedAt)) =
        db.attempts.map (fun p => (p.2.createdAt, p.2.updatedAt)) ++ [(none, none)]) ∧
    (seed_super_admin db hash = db ∨
      (seed_super_admin db hash).users.map (fun usr => (usr.createdAt, usr.updatedAt)) =
        db.users.map (fun usr => (usr.createdAt, usr.updatedAt)) ++ [(none, none)]) := by
  refine ⟨?_, ?_, ?_⟩
  · intro r db' h
    rw [create_quiz_some] at h
    by_cases hrole : u.role = "superadmin" ∨ u.role = "teacher"
    · rw [if_pos hrole] at h
      have h2 : DB.mk db.users (db.quizzes ++ [QuizDoc.mk code data.title code data.timeLimit
          1 u.uid (some data.questions) (some now) (some now)]) db.attempts = db' :=
        congrArg Prod.snd h
      rw [← h2]
      show (db.quizzes ++ [QuizDoc.mk code data.title code data.timeLimit 1 u.uid
          (some data.questions) (some now) (some now)]).map
            (fun z => (z.createdAt, z.updatedAt)) =
        db.quizzes.map (fun z => (z.createdAt, z.updatedAt)) ++ [(some now, some now)]
      rw [List.map_append]
      rfl
    · rw [if_neg hrole] at h
      exact absurd (congrArg Prod.fst h) (by simp)
  · intro quiz hq
    unfold start_attempt
    simp only [hq]
    show (db.attempts ++ [(nid, newAttempt quiz.id sid now)]).map
        (fun p => (p.2.createdAt, p.2.updatedAt)) =
      db.attempts.map (fun p => (p.2.createdAt, p.2.updatedAt)) ++ [(none, none)]
    rw [List.map_append]
    rfl
  · unfold seed_super_admin
    cases hf : db.users.find? (fun u' => u'.email == "admin@university.edu") with
    | some u' => exact Or.inl rfl
    | none =>
      right
      show (db.users ++ [seedUserDoc hash]).map (fun usr => (usr.createdAt, usr.updatedAt)) =
        db.users.map (fun usr => (usr.createdAt, usr.updatedAt)) ++ [(none, none)]
      rw [List.map_append]
      rfl

/-- Witness for C9 (amended) at concrete inputs for all three collections. -/
theorem insertion_timestamps_witness :
    (create_quiz (some c9wUser) c9wDb 6 "TSQZ01" c9wReq).2.quizzes.map
        (fun z => (z.createdAt, z.updatedAt)) =
      c9wDb.quizzes.map (fun z => (z.createdAt, z.updatedAt)) ++ [(some 6, some 6)] ∧
    (start_attempt none c9wDb 6 "a9w" "C9WQZ1" "s9w").2.attempts.map
        (fun p => (p.2.createdAt, p.2.updatedAt)) =
      c9wDb.attempts.map (fun p => (p.2.createdAt, p.2.updatedAt)) ++ [(none, none)] ∧
    (seed_super_admin c9wDb "h0" = c9wDb ∨
      (seed_super_admin c9wDb "h0").users.map (fun usr => (usr.createdAt, usr.updatedAt)) =
        c9wDb.users.map (fun usr => (usr.createdAt, usr.updatedAt)) ++ [(none, none)]) := by
  have happ := insertion_timestamps c9wUser c9wDb 6 "TSQZ01" c9wReq none "a9w" "C9WQZ1" "s9w" "h0"
  exact ⟨happ.1 ("TSQZ01", "TSQZ01") (create_quiz (some c9wUser) c9wDb 6 "TSQZ01" c9wReq).2 rfl,
    happ.2.1 c9wQuiz rfl, happ.2.2⟩

/-!
### Claim C10 — attempt-taking endpoints perform no credential check
-/

/-- C10: the four attempt-taking handlers never inspect the `Authorization`
header (the quiz-fetch dependency discards it; the other three declare no
auth dependency at all): each behaves identically for any two callers, and
none can fail with `Unauthorized` or `Forbidden`. -/
theorem attempt_endpoints_ignore_auth (a a' : Option String) (db : DB) (now : Time)
    (code nid qc sid aid ty : String) (ans : Answers) (meta : Meta) :
    get_quiz_by_code a db code = get_quiz_by_code a' db code ∧
    start_attempt a db now nid qc sid = start_attempt a' db now nid qc sid ∧
    submit_attempt a db now aid ans = submit_attempt a' db now aid ans ∧
    log_event a db now aid ty meta = log_event a' db now aid ty meta ∧
    (∀ e, (get_quiz_by_code a db code).1 = .error e →
      ¬e = .unauthorized ∧ ¬e = .forbidden) ∧
    (∀ e, (start_attempt a db now nid qc sid).1 = .error e →
      ¬e = .unauthorized ∧ ¬e = .forbidden) ∧
    (∀ e, (submit_attempt a db now aid ans).1 = .error e →
      ¬e = .unauthorized ∧ ¬e = .forbidden) ∧
    (∀ e, (log_event a db now aid ty meta).1 = .error e →
      ¬e = .unauthorized ∧ ¬e = .forbidden) := by
  refine ⟨rfl, rfl, rfl, rfl, ?_, ?_, ?_, ?_⟩
  · intro e he
    unfold get_quiz_by_code at he
    cases hf : findQuizByCode db code with
    | none =>
      simp only [hf] at he
      have he' : Except.error ApiErr.notFound = Except.error e := he
      cases Except.error.inj he'
      exact ⟨by decide, by decide⟩
    | some quiz =>
      simp only [hf] at he
      have he' : Except.ok (stripIsCorrect quiz) = Except.error e := he
      exact absurd he' (by simp)
  · intro e he
    unfold start_attempt at he
    cases hf : findQuizByCode db qc with
    | none =>
      simp only [hf] at he
      have he' : Except.error ApiErr.notFound = Except.error e := he
      cases Except.error.inj he'
      exact ⟨by decide, by decide⟩
    | some quiz =>
      simp only [hf] at he
      have he' : Except.ok nid = Except.error e := he
      exact absurd he' (by simp)
  · intro e he
    unfold submit_attempt at he
    cases hf : findAttempt db aid with
    | none =>
      simp only [hf] at he
      have he' : Except.error ApiErr.notFound = Except.error e := he
      cases Except.error.inj he'
      exact ⟨by decide, by decide⟩
    | some att =>
      simp only [hf] at he
      cases hq : findQuizById db att.quizId with
      | none =>
        simp only [hq] at he
        have he' : Except.error ApiErr.pyError = Except.error e := he
        cases Except.error.inj he'
        exact ⟨by decide, by decide⟩
      | some quiz =>
        simp only [hq] at he
        cases hs : calculate_score quiz ans with
        | error err =>
          simp only [hs] at he
          have he' : Except.error ApiErr.pyError = Except.error e := he
          cases Except.error.inj he'
          exact ⟨by decide, by decide⟩
        | ok s =>
          simp only [hs] at he
          have he' : Except.ok s = Except.error e := he
          exact absurd he' (by simp)
  · intro e he
    have he' : Except.ok "logged" = Except.error e := he
    exact absurd he' (by simp)

/-- Witness for C10 at a concrete store and caller pair. -/
theorem attempt_endpoints_ignore_auth_witness :
    get_quiz_by_code (some "Bearer tok") c10Db "X" = get_quiz_by_code none c10Db "X" ∧
      (¬ApiErr.notFound = ApiErr.unauthorized ∧ ¬ApiErr.notFound = ApiErr.forbidden) := by
  have happ := attempt_endpoints_ignore_auth (some "Bearer tok") none c10Db 0
    "X" "n1" "QC" "S1" "A1" "T1" [] none
  exact ⟨happ.1, happ.2.2.2.2.1 ApiErr.notFound rfl⟩
